import Mathlib

/-!
# Shallow embedding of `src/cw/libCrypto/MultiSig.h` (Zilliqa EC-Schnorr multisig)

The repository ships only the header `MultiSig.h`: it declares the value
objects (`CommitSecret`, `CommitPoint`, `CommitPointHash`, `Challenge`,
`Response`) and the `MultiSig` aggregation/verification operations, while the
implementation file and the `Schnorr.h` collaborator are not present.  Every
operational definition below is therefore modelled from the specification
(`spec.md`), which was written against that interface; each such definition
carries a doc comment starting `Modelled from the spec:` naming what is
missing.

The elliptic-curve collaborator is out of scope for the library (spec §1, §6):
only the subgroup generated by the base point is ever used, and for a
prime-order curve that subgroup is cyclic of order `n`.  We model it
concretely and executably: points are elements of `ZMod n` under addition,
the base point is a parameter `g : ZMod n`, scalar multiplication of a point
by a scalar `k : ZMod n` is ring multiplication `k * p` (the `ZMod n`-module
structure of the cyclic group).  Scalars (secrets, challenges, responses,
private keys) are `ZMod n`; `BIGNUM` byte serialization is fixed-width
big-endian over `List ℕ` byte lists.
-/

namespace LibCrypto

/-- Big-endian fixed-width byte encoding of a natural number:
`natToBEBytes w v` is the `w`-byte big-endian encoding of `v` (mod `256^w`).
Models `BIGNUMSerialize::SetNumber`'s fixed-width output. -/
def natToBEBytes : ℕ → ℕ → List ℕ
  | 0, _ => []
  | w + 1, v => natToBEBytes w (v / 256) ++ [v % 256]

/-- Big-endian byte decoding: models `BIGNUMSerialize::GetNumber`. -/
def beBytesToNat (l : List ℕ) : ℕ :=
  l.foldl (fun a b => a * 256 + b) 0

/-- Writing `data` into buffer `dst` at position `offset`, extending (with
zero padding) when the buffer is too short: models how `Serialize` writes
into the caller-supplied `bytes& dst` at `offset`, resizing as needed. -/
def writeAt (dst : List ℕ) (offset : ℕ) (data : List ℕ) : List ℕ :=
  dst.take offset ++ List.replicate (offset - dst.length) 0 ++ data
    ++ dst.drop (offset + data.length)

theorem natToBEBytes_length (w v : ℕ) : (natToBEBytes w v).length = w := by
  induction w generalizing v with
  | zero => rfl
  | succ w ih => simp [natToBEBytes, ih]

theorem beBytesToNat_append_singleton (l : List ℕ) (b : ℕ) :
    beBytesToNat (l ++ [b]) = beBytesToNat l * 256 + b := by
  simp [beBytesToNat, List.foldl_append]

theorem beBytesToNat_natToBEBytes (w v : ℕ) (h : v < 256 ^ w) :
    beBytesToNat (natToBEBytes w v) = v := by
  induction w generalizing v with
  | zero =>
    interval_cases v
    rfl
  | succ w ih =>
    have hdiv : v / 256 < 256 ^ w := by
      apply Nat.div_lt_of_lt_mul
      calc v < 256 ^ (w + 1) := h
        _ = 256 * 256 ^ w := by ring
    rw [natToBEBytes, beBytesToNat_append_singleton, ih _ hdiv]
    have := Nat.div_add_mod v 256
    omega

theorem writeAt_prefix_length (dst : List ℕ) (offset : ℕ) :
    (dst.take offset ++ List.replicate (offset - dst.length) 0).length
      = offset := by
  simp [List.length_take, List.length_replicate]
  omega

theorem drop_writeAt (dst : List ℕ) (offset : ℕ) (data : List ℕ) :
    (writeAt dst offset data).drop offset
      = data ++ dst.drop (offset + data.length) := by
  rw [writeAt, List.append_assoc, List.append_assoc, ← List.append_assoc]
  exact List.drop_left' (writeAt_prefix_length dst offset)

theorem length_writeAt_ge (dst : List ℕ) (offset : ℕ) (data : List ℕ) :
    offset + data.length ≤ (writeAt dst offset data).length := by
  rw [writeAt, List.append_assoc, List.append_assoc, ← List.append_assoc]
  rw [List.length_append, writeAt_prefix_length]
  simp

/-- Serialized width of a scalar (curve order's byte length, 32 for a
256-bit curve): the `COMMIT_SECRET_SIZE` / challenge / response width. -/
def scalarWidth : ℕ := 32

/-- Serialized width of a compressed curve point (33 bytes). -/
def pointWidth : ℕ := 33

/-- Outcome of a `Deserialize` call.  The header's `Deserialize` returns an
`int` status; spec §7 classifies the failures as `MalformedInput`
(buffer too short / offset out of range) and `InvalidMathematicalValue`
(scalar outside `[1, n-1]`; point not on curve or the identity). -/
inductive SerStatus where
  | ok : SerStatus
  | malformedInput : SerStatus
  | invalidMathematicalValue : SerStatus
deriving DecidableEq, Repr

/-- `CommitSecret` (MultiSig.h:32): the secret scalar `m_s` and the
`m_initialized` flag.  The scalar lives in `ZMod n` where `n` is the
curve order. -/
structure CommitSecret (n : ℕ) where
  m_s : ZMod n
  m_initialized : Bool
deriving DecidableEq

/-- `CommitPoint` (MultiSig.h:68): the public point `m_p` and the
`m_initialized` flag.  A point of the prime-order subgroup is represented
by its coordinate in the cyclic group `ZMod n`. -/
structure CommitPoint (n : ℕ) where
  m_p : ZMod n
  m_initialized : Bool
deriving DecidableEq

/-- `CommitPointHash` (MultiSig.h:111): the hash value `m_h` (a scalar-sized
digest, stored as a number below `256^scalarWidth`) and the flag. -/
structure CommitPointHash (n : ℕ) where
  m_h : ℕ
  m_initialized : Bool
deriving DecidableEq

/-- `Challenge` (MultiSig.h:163): the challenge scalar `m_c` and the flag. -/
structure Challenge (n : ℕ) where
  m_c : ZMod n
  m_initialized : Bool
deriving DecidableEq

/-- `Response` (MultiSig.h:212): the response scalar `m_r` and the flag. -/
structure Response (n : ℕ) where
  m_r : ZMod n
  m_initialized : Bool
deriving DecidableEq

/-- `Signature` from the `Schnorr.h` collaborator (not in src/): a container
with a challenge field and a response field (spec §6: "a single-party
Signature container (challenge + response fields)"). -/
structure Signature (n : ℕ) where
  m_challenge : ZMod n
  m_response : ZMod n
deriving DecidableEq

namespace CommitSecret

/-- Modelled from the spec (§4.1, §6; `CommitSecret::Serialize` body is not
in src/): writes the fixed-width big-endian scalar encoding into `dst` at
`offset` and returns (new buffer, bytes written). -/
def Serialize {n : ℕ} (self : CommitSecret n) (dst : List ℕ) (offset : ℕ) :
    List ℕ × ℕ :=
  (writeAt dst offset (natToBEBytes scalarWidth self.m_s.val), scalarWidth)

/-- Modelled from the spec (§4.1, §6, §7; `CommitSecret::Deserialize` body is
not in src/): reads `scalarWidth` bytes at `offset`; `MalformedInput` when
fewer bytes remain, `InvalidMathematicalValue` when the decoded scalar is `0`
or `≥ n`; on failure the resulting object is the inert uninitialized one
(spec §7: never a corrupted partial value, flag remains false).  The C++
instance method's prior state is irrelevant to the result, so the model takes
no `self`. -/
def deserialize (n : ℕ) (src : List ℕ) (offset : ℕ) :
    CommitSecret n × SerStatus :=
  if src.length < offset + scalarWidth then
    (⟨0, false⟩, .malformedInput)
  else
    let v := beBytesToNat ((src.drop offset).take scalarWidth)
    if v = 0 ∨ n ≤ v then (⟨0, false⟩, .invalidMathematicalValue)
    else (⟨(v : ZMod n), true⟩, .ok)

/-- Modelled from the spec (MultiSig.h:43, "Constructor for loading existing
secret from a byte stream"; body not in src/): a fresh object deserialized
from the buffer. -/
def ofByteStream (n : ℕ) (src : List ℕ) (offset : ℕ) : CommitSecret n :=
  (deserialize n src offset).1

/-- Modelled from the spec (§4.1 "Equality: compares the underlying scalar
values"; `operator==` body not in src/). -/
def eq {n : ℕ} (a b : CommitSecret n) : Bool :=
  decide (a.m_s = b.m_s)

end CommitSecret

namespace CommitPoint

/-- Modelled from the spec (§4.2 "Set(secret): computes
point = secret·basePoint using the curve collaborator; fails if secret is
uninitialized"; `CommitPoint::Set` body not in src/).  `g` is the base
point. -/
def Set {n : ℕ} (g : ZMod n) (secret : CommitSecret n) : CommitPoint n :=
  if secret.m_initialized then ⟨secret.m_s * g, true⟩ else ⟨0, false⟩

/-- Modelled from the spec (§6; `CommitPoint::Serialize` body not in src/):
fixed-width encoded point written at `offset`. -/
def Serialize {n : ℕ} (self : CommitPoint n) (dst : List ℕ) (offset : ℕ) :
    List ℕ × ℕ :=
  (writeAt dst offset (natToBEBytes pointWidth self.m_p.val), pointWidth)

/-- Modelled from the spec (§4.2, §6, §7; `CommitPoint::Deserialize` body not
in src/): reads `pointWidth` bytes; `MalformedInput` when fewer bytes remain;
a decoding that is not a group element (`≥ n`) is not on the curve and a
decoding of `0` is the identity point, both `InvalidMathematicalValue`; on
failure the result is the inert uninitialized object. -/
def deserialize (n : ℕ) (src : List ℕ) (offset : ℕ) :
    CommitPoint n × SerStatus :=
  if src.length < offset + pointWidth then
    (⟨0, false⟩, .malformedInput)
  else
    let v := beBytesToNat ((src.drop offset).take pointWidth)
    if v = 0 ∨ n ≤ v then (⟨0, false⟩, .invalidMathematicalValue)
    else (⟨(v : ZMod n), true⟩, .ok)

/-- Modelled from the spec (MultiSig.h:83; body not in src/): construction
from a byte stream. -/
def ofByteStream (n : ℕ) (src : List ℕ) (offset : ℕ) : CommitPoint n :=
  (deserialize n src offset).1

/-- Modelled from the spec (§4.2 "Equality: point equality"; body not in
src/). -/
def eq {n : ℕ} (a b : CommitPoint n) : Bool :=
  decide (a.m_p = b.m_p)

end CommitPoint

namespace CommitPointHash

/-- Modelled from the spec (§4.3 "Set(commitment): h = Hash(encode(commitment))";
`CommitPointHash::Set` body not in src/).  `H` is the hash collaborator; the
digest is scalar-sized, i.e. below `256^scalarWidth`. -/
def Set {n : ℕ} (H : List ℕ → ℕ) (point : CommitPoint n) : CommitPointHash n :=
  if point.m_initialized then
    ⟨H (natToBEBytes pointWidth point.m_p.val) % 256 ^ scalarWidth, true⟩
  else ⟨0, false⟩

/-- Modelled from the spec (§6; body not in src/). -/
def Serialize {n : ℕ} (self : CommitPointHash n) (dst : List ℕ)
    (offset : ℕ) : List ℕ × ℕ :=
  (writeAt dst offset (natToBEBytes scalarWidth self.m_h), scalarWidth)

/-- Modelled from the spec (§6, §7; body not in src/): reads the fixed-width
digest; `MalformedInput` when fewer bytes remain.  The digest is a raw hash
value, not a mod-`n` field scalar, so no range condition beyond the width
applies (§4.3, §8 round trip). -/
def deserialize (n : ℕ) (src : List ℕ) (offset : ℕ) :
    CommitPointHash n × SerStatus :=
  if src.length < offset + scalarWidth then
    (⟨0, false⟩, .malformedInput)
  else
    (⟨beBytesToNat ((src.drop offset).take scalarWidth), true⟩, .ok)

/-- Modelled from the spec (MultiSig.h:125; body not in src/). -/
def ofByteStream (n : ℕ) (src : List ℕ) (offset : ℕ) : CommitPointHash n :=
  (deserialize n src offset).1

/-- Modelled from the spec (hash-value comparison; body not in src/). -/
def eq {n : ℕ} (a b : CommitPointHash n) : Bool :=
  decide (a.m_h = b.m_h)

end CommitPointHash

/-- The byte string hashed to derive a challenge (spec §4.4):
`encode(aggregatedCommitment) ‖ encode(aggregatedPubKey) ‖ message[offset, offset+size)`. -/
def challengeBytes {n : ℕ} (R Q : ZMod n) (message : List ℕ)
    (offset size : ℕ) : List ℕ :=
  natToBEBytes pointWidth R.val ++ natToBEBytes pointWidth Q.val
    ++ (message.drop offset).take size

namespace Challenge

/-- Modelled from the spec (§4.4 "Set(aggregatedCommitment, aggregatedPubKey,
message, offset, size): c = HashToScalar(encode(aggregatedCommitment) ‖
encode(aggregatedPubKey) ‖ message[offset, offset+size)) mod n";
`Challenge::Set` body not in src/).  Fails (leaving the object
uninitialized) when the aggregated commitment is uninitialized or the
message slice is out of range (§7 MalformedInput: offset out of range). -/
def Set {n : ℕ} (H : List ℕ → ℕ) (aggregatedCommit : CommitPoint n)
    (aggregatedPubkey : ZMod n) (message : List ℕ) (offset size : ℕ) :
    Challenge n :=
  if aggregatedCommit.m_initialized ∧ offset + size ≤ message.length then
    ⟨(H (challengeBytes aggregatedCommit.m_p aggregatedPubkey message offset
        size) : ZMod n), true⟩
  else ⟨0, false⟩

/-- Modelled from the spec (§6; `Challenge::Serialize` body not in src/). -/
def Serialize {n : ℕ} (self : Challenge n) (dst : List ℕ) (offset : ℕ) :
    List ℕ × ℕ :=
  (writeAt dst offset (natToBEBytes scalarWidth self.m_c.val), scalarWidth)

/-- Modelled from the spec (§6, §7; `Challenge::Deserialize` body not in
src/): same fixed-width scalar contract as `CommitSecret.deserialize`. -/
def deserialize (n : ℕ) (src : List ℕ) (offset : ℕ) :
    Challenge n × SerStatus :=
  if src.length < offset + scalarWidth then
    (⟨0, false⟩, .malformedInput)
  else
    let v := beBytesToNat ((src.drop offset).take scalarWidth)
    if v = 0 ∨ n ≤ v then (⟨0, false⟩, .invalidMathematicalValue)
    else (⟨(v : ZMod n), true⟩, .ok)

/-- Modelled from the spec (MultiSig.h:182, "Constructor for loading
challenge information from a byte stream"; body not in src/). -/
def ofByteStream (n : ℕ) (src : List ℕ) (offset : ℕ) : Challenge n :=
  (deserialize n src offset).1

/-- Modelled from the spec (scalar-value comparison; body not in src/). -/
def eq {n : ℕ} (a b : Challenge n) : Bool :=
  decide (a.m_c = b.m_c)

end Challenge

namespace Response

/-- Modelled from the spec (§4.5 "Set(secret, challenge, privateKey):
r = (secret + challenge·privateKey) mod n.  Requires secret and challenge to
be initialized; fails otherwise"; `Response::Set` body not in src/).  On
failure the response is the inert uninitialized object. -/
def Set {n : ℕ} (secret : CommitSecret n) (challenge : Challenge n)
    (privkey : ZMod n) : Response n :=
  if secret.m_initialized ∧ challenge.m_initialized then
    ⟨secret.m_s + challenge.m_c * privkey, true⟩
  else ⟨0, false⟩

/-- Modelled from the spec (§6; `Response::Serialize` body not in src/). -/
def Serialize {n : ℕ} (self : Response n) (dst : List ℕ) (offset : ℕ) :
    List ℕ × ℕ :=
  (writeAt dst offset (natToBEBytes scalarWidth self.m_r.val), scalarWidth)

/-- Modelled from the spec (§6, §7; `Response::Deserialize` body not in
src/): same fixed-width scalar contract as `CommitSecret.deserialize`. -/
def deserialize (n : ℕ) (src : List ℕ) (offset : ℕ) :
    Response n × SerStatus :=
  if src.length < offset + scalarWidth then
    (⟨0, false⟩, .malformedInput)
  else
    let v := beBytesToNat ((src.drop offset).take scalarWidth)
    if v = 0 ∨ n ≤ v then (⟨0, false⟩, .invalidMathematicalValue)
    else (⟨(v : ZMod n), true⟩, .ok)

/-- Modelled from the spec (MultiSig.h:227; body not in src/). -/
def ofByteStream (n : ℕ) (src : List ℕ) (offset : ℕ) : Response n :=
  (deserialize n src offset).1

/-- Modelled from the spec (scalar-value comparison; body not in src/). -/
def eq {n : ℕ} (a b : Response n) : Bool :=
  decide (a.m_r = b.m_r)

end Response

namespace MultiSig

/-- Modelled from the spec (§4.6 "AggregatePubKeys(list): group-sum of N ≥ 1
public-key points; fails (empty result) if list is empty"; body not in
src/).  A `PubKey` of the `Schnorr.h` collaborator is a valid curve point,
modelled as its coordinate in `ZMod n`; the `shared_ptr` result being null
on failure is modelled by `Option`. -/
def AggregatePubKeys {n : ℕ} (pubkeys : List (ZMod n)) : Option (ZMod n) :=
  if pubkeys.isEmpty then none else some pubkeys.sum

/-- Modelled from the spec (§4.6 "AggregateCommitments(list): same contract,
over Commitment points", failing on an empty list or any
uninitialized/invalid element; `MultiSig::AggregateCommits` body not in
src/). -/
def AggregateCommits {n : ℕ} (commitPoints : List (CommitPoint n)) :
    Option (CommitPoint n) :=
  if commitPoints.isEmpty ∨ ¬ (commitPoints.all (·.m_initialized)) then none
  else some ⟨(commitPoints.map (·.m_p)).sum, true⟩

/-- Modelled from the spec (§4.6 "AggregateResponses(list): scalar sum mod n
of N ≥ 1 Response values; same empty/invalid-input failure contract"; body
not in src/). -/
def AggregateResponses {n : ℕ} (responses : List (Response n)) :
    Option (Response n) :=
  if responses.isEmpty ∨ ¬ (responses.all (·.m_initialized)) then none
  else some ⟨(responses.map (·.m_r)).sum, true⟩

/-- Modelled from the spec (§4.6 "AggregateSign(challenge,
aggregatedResponse): packages (challenge, aggregatedResponse) into the
standard single-party signature representation; fails if either input
uninitialized"; body not in src/). -/
def AggregateSign {n : ℕ} (challenge : Challenge n)
    (aggregatedResponse : Response n) : Option (Signature n) :=
  if challenge.m_initialized ∧ aggregatedResponse.m_initialized then
    some ⟨challenge.m_c, aggregatedResponse.m_r⟩
  else none

/-- Modelled from the spec (§4.6 "VerifyResponse(response, challenge,
pubKey, commitment): checks response·basePoint == commitment +
challenge·pubKey ... Returns a boolean — false is an expected outcome
(invalid response), not an error"; §7: operations on uninitialized objects
fail; `MultiSig::VerifyResponse` body not in src/). -/
def VerifyResponse {n : ℕ} (g : ZMod n) (response : Response n)
    (challenge : Challenge n) (pubkey : ZMod n)
    (commitPoint : CommitPoint n) : Bool :=
  response.m_initialized && challenge.m_initialized
    && commitPoint.m_initialized
    && decide (response.m_r * g = commitPoint.m_p + challenge.m_c * pubkey)

/-- Modelled from the spec (§4.6 "MultiSigVerify(message[, offset, size],
signature, aggregatedPubKey): ... equivalent to checking
signature.response·basePoint == Challenge-implied-commitment +
signature.challenge·aggregatedPubKey, recomputing the challenge hash over
the given message slice and comparing.  Returns boolean";
`MultiSig::MultiSigVerify` body not in src/).  The challenge-implied
commitment is `response·basePoint - challenge·aggregatedPubKey`; the
recomputed challenge over that point must equal the signature's
challenge. -/
def MultiSigVerifySliced {n : ℕ} (H : List ℕ → ℕ) (g : ZMod n)
    (message : List ℕ) (offset size : ℕ) (toverify : Signature n)
    (pubkey : ZMod n) : Bool :=
  if offset + size ≤ message.length then
    decide
      ((H (challengeBytes
          (toverify.m_response * g - toverify.m_challenge * pubkey) pubkey
          message offset size) : ZMod n) = toverify.m_challenge)
  else false

/-- Modelled from the spec (MultiSig.h:293, the whole-message overload of
`MultiSigVerify`; body not in src/): verifies over the full message, i.e.
the slice starting at 0 of the message's full length. -/
def MultiSigVerify {n : ℕ} (H : List ℕ → ℕ) (g : ZMod n) (message : List ℕ)
    (toverify : Signature n) (pubkey : ZMod n) : Bool :=
  MultiSigVerifySliced H g message 0 message.length toverify pubkey

end MultiSig

/-! ## Helper lemmas -/

/-- Decoding the bytes that `writeAt` wrote: the buffer is long enough, and
reading `w` bytes back at `offset` recovers the encoded value. -/
theorem decode_writeAt (w v : ℕ) (hv : v < 256 ^ w) (dst : List ℕ)
    (offset : ℕ) :
    ¬ (writeAt dst offset (natToBEBytes w v)).length < offset + w ∧
      beBytesToNat
        (((writeAt dst offset (natToBEBytes w v)).drop offset).take w) = v := by
  constructor
  · have h := length_writeAt_ge dst offset (natToBEBytes w v)
    rw [natToBEBytes_length] at h
    omega
  · rw [drop_writeAt, List.take_left' (natToBEBytes_length w v)]
    exact beBytesToNat_natToBEBytes w v hv

/-- A permutation leaves `List.all` unchanged. -/
theorem perm_all_eq {α : Type} (p : α → Bool) {l l' : List α}
    (h : l.Perm l') : l.all p = l'.all p := by
  rw [Bool.eq_iff_iff]
  simp only [List.all_eq_true]
  exact ⟨fun ha x hx => ha x (h.mem_iff.mpr hx),
    fun ha x hx => ha x (h.mem_iff.mp hx)⟩

/-- Completeness core of Schnorr verification: a signature whose challenge
is the hash over `R = ssum·g`, `Q = ksum·g` and whose response is
`ssum + c·ksum` verifies against `Q`. -/
theorem multiSigVerifySliced_complete {n : ℕ} (H : List ℕ → ℕ)
    (g ssum ksum : ZMod n) (message : List ℕ) (c : ZMod n)
    (hc : c = (H (challengeBytes (ssum * g) (ksum * g) message 0
      message.length) : ZMod n)) :
    MultiSig.MultiSigVerifySliced H g message 0 message.length
      ⟨c, ssum + c * ksum⟩ (ksum * g) = true := by
  unfold MultiSig.MultiSigVerifySliced
  rw [if_pos (by omega)]
  have hpt : (ssum + c * ksum) * g - c * (ksum * g) = ssum * g := by ring
  show decide
      ((H (challengeBytes ((ssum + c * ksum) * g - c * (ksum * g)) (ksum * g)
        message 0 message.length) : ZMod n) = c) = true
  rw [hpt, ← hc]
  simp

/-- The facts needed to read a serialized nonzero scalar back: the buffer is
long enough, decoding returns the scalar's value, the decoded value passes
the `[1, n-1]` range check, and casting the value back gives the scalar. -/
theorem val_encode_facts {n : ℕ} [NeZero n] (w : ℕ) (hn : n ≤ 256 ^ w)
    (a : ZMod n) (ha : a ≠ 0) (dst : List ℕ) (offset : ℕ) :
    ¬ (writeAt dst offset (natToBEBytes w a.val)).length < offset + w ∧
      beBytesToNat
        (((writeAt dst offset (natToBEBytes w a.val)).drop offset).take w)
        = a.val ∧
      ¬ (a.val = 0 ∨ n ≤ a.val) ∧
      ((a.val : ℕ) : ZMod n) = a := by
  have hlt : a.val < 256 ^ w := lt_of_lt_of_le a.val_lt hn
  obtain ⟨hbuf, hdec⟩ := decode_writeAt w a.val hlt dst offset
  refine ⟨hbuf, hdec, ?_, ZMod.natCast_rightInverse a⟩
  push_neg
  refine ⟨fun h0 => ha ((ZMod.val_eq_zero a).mp h0), a.val_lt⟩

/-! ## Claims -/

/-- C1: End-to-end completeness — for every message `m` and every three
honest signers with initialized secrets `s1,s2,s3`, commitments
`P_i = s_i·basePoint`, key pairs with public keys `q_i = k_i·basePoint`,
aggregated commitment `R`, aggregated public key `Q`, challenge
`c = Challenge(R, Q, m)`, responses `r_i = Response(s_i, c, k_i)`,
aggregated response and signature from `AggregateSign`,
`MultiSigVerify(m, signature, Q)` returns `true`. -/
theorem multisig_end_to_end {n : ℕ} (H : List ℕ → ℕ) (g : ZMod n)
    (s1 s2 s3 : CommitSecret n) (k1 k2 k3 : ZMod n) (message : List ℕ)
    (h1 : s1.m_initialized = true) (h2 : s2.m_initialized = true)
    (h3 : s3.m_initialized = true) :
    (do
      let R ← MultiSig.AggregateCommits
        [CommitPoint.Set g s1, CommitPoint.Set g s2, CommitPoint.Set g s3]
      let Q ← MultiSig.AggregatePubKeys [k1 * g, k2 * g, k3 * g]
      let c := Challenge.Set H R Q message 0 message.length
      let sagg ← MultiSig.AggregateResponses
        [Response.Set s1 c k1, Response.Set s2 c k2, Response.Set s3 c k3]
      let sig ← MultiSig.AggregateSign c sagg
      pure (MultiSig.MultiSigVerify H g message sig Q))
      = some true := by
  have e1 : MultiSig.AggregateCommits
      [CommitPoint.Set g s1, CommitPoint.Set g s2, CommitPoint.Set g s3]
      = some ⟨(s1.m_s + s2.m_s + s3.m_s) * g, true⟩ := by
    simp [MultiSig.AggregateCommits, CommitPoint.Set, h1, h2, h3]
    ring
  have e2 : MultiSig.AggregatePubKeys [k1 * g, k2 * g, k3 * g]
      = some ((k1 + k2 + k3) * g) := by
    simp [MultiSig.AggregatePubKeys]
    ring
  rw [e1, e2]
  simp only [Option.bind_eq_bind, Option.some_bind]
  have e3 : Challenge.Set H ⟨(s1.m_s + s2.m_s + s3.m_s) * g, true⟩
      ((k1 + k2 + k3) * g) message 0 message.length
      = ⟨(H (challengeBytes ((s1.m_s + s2.m_s + s3.m_s) * g)
          ((k1 + k2 + k3) * g) message 0 message.length) : ZMod n), true⟩ := by
    simp [Challenge.Set]
  rw [e3]
  have e4 : MultiSig.AggregateResponses
      [Response.Set s1 ⟨(H (challengeBytes ((s1.m_s + s2.m_s + s3.m_s) * g)
          ((k1 + k2 + k3) * g) message 0 message.length) : ZMod n), true⟩ k1,
        Response.Set s2 ⟨(H (challengeBytes ((s1.m_s + s2.m_s + s3.m_s) * g)
          ((k1 + k2 + k3) * g) message 0 message.length) : ZMod n), true⟩ k2,
        Response.Set s3 ⟨(H (challengeBytes ((s1.m_s + s2.m_s + s3.m_s) * g)
          ((k1 + k2 + k3) * g) message 0 message.length) : ZMod n), true⟩ k3]
      = some ⟨(s1.m_s + s2.m_s + s3.m_s)
          + (H (challengeBytes ((s1.m_s + s2.m_s + s3.m_s) * g)
            ((k1 + k2 + k3) * g) message 0 message.length) : ZMod n)
            * (k1 + k2 + k3), true⟩ := by
    simp [MultiSig.AggregateResponses, Response.Set, h1, h2, h3]
    ring
  rw [e4]
  simp only [Option.some_bind]
  have e5 : MultiSig.AggregateSign
      ⟨(H (challengeBytes ((s1.m_s + s2.m_s + s3.m_s) * g)
        ((k1 + k2 + k3) * g) message 0 message.length) : ZMod n), true⟩
      ⟨(s1.m_s + s2.m_s + s3.m_s)
        + (H (challengeBytes ((s1.m_s + s2.m_s + s3.m_s) * g)
          ((k1 + k2 + k3) * g) message 0 message.length) : ZMod n)
          * (k1 + k2 + k3), true⟩
      = some ⟨(H (challengeBytes ((s1.m_s + s2.m_s + s3.m_s) * g)
          ((k1 + k2 + k3) * g) message 0 message.length) : ZMod n),
        (s1.m_s + s2.m_s + s3.m_s)
          + (H (challengeBytes ((s1.m_s + s2.m_s + s3.m_s) * g)
            ((k1 + k2 + k3) * g) message 0 message.length) : ZMod n)
            * (k1 + k2 + k3)⟩ := by
    simp [MultiSig.AggregateSign]
  rw [e5]
  simp only [Option.some_bind, Option.pure_def, Option.some.injEq]
  exact multiSigVerifySliced_complete H g (s1.m_s + s2.m_s + s3.m_s)
    (k1 + k2 + k3) message _ rfl

/-- Witness for C1 at a concrete instance: three initialized secrets over
`ZMod 13`, base point `1`, a concrete hash function and message. -/
theorem multisig_end_to_end_witness :
    ((⟨2, true⟩ : CommitSecret 13).m_initialized = true) ∧
    ((⟨5, true⟩ : CommitSecret 13).m_initialized = true) ∧
    ((⟨7, true⟩ : CommitSecret 13).m_initialized = true) ∧
    (do
      let R ← MultiSig.AggregateCommits
        [CommitPoint.Set (1 : ZMod 13) ⟨2, true⟩,
          CommitPoint.Set 1 ⟨5, true⟩, CommitPoint.Set 1 ⟨7, true⟩]
      let Q ← MultiSig.AggregatePubKeys [(3 : ZMod 13) * 1, 4 * 1, 6 * 1]
      let c := Challenge.Set (fun l => l.length + 1) R Q [1, 2, 3] 0
        (List.length [1, 2, 3])
      let sagg ← MultiSig.AggregateResponses
        [Response.Set ⟨2, true⟩ c 3, Response.Set ⟨5, true⟩ c 4,
          Response.Set ⟨7, true⟩ c 6]
      let sig ← MultiSig.AggregateSign c sagg
      pure (MultiSig.MultiSigVerify (fun l => l.length + 1) 1 [1, 2, 3] sig
        Q))
      = some true :=
  ⟨rfl, rfl, rfl,
    multisig_end_to_end (fun l => l.length + 1) 1 ⟨2, true⟩ ⟨5, true⟩
      ⟨7, true⟩ 3 4 6 [1, 2, 3] rfl rfl rfl⟩

/-- C2: `VerifyResponse(response, challenge, pubkey, commitPoint)` on
initialized inputs returns `true` iff
`response·basePoint = commitPoint + challenge·pubkey` as curve points; an
unsatisfied equation yields the boolean `false`, not an error. -/
theorem verifyResponse_iff_equation {n : ℕ} (g : ZMod n)
    (response : Response n) (challenge : Challenge n) (pubkey : ZMod n)
    (commitPoint : CommitPoint n) (hr : response.m_initialized = true)
    (hc : challenge.m_initialized = true)
    (hp : commitPoint.m_initialized = true) :
    MultiSig.VerifyResponse g response challenge pubkey commitPoint = true
      ↔ response.m_r * g = commitPoint.m_p + challenge.m_c * pubkey := by
  simp [MultiSig.VerifyResponse, hr, hc, hp]

/-- Witness for C2: a concrete initialized instance over `ZMod 13` where the
equation holds (`5·1 = 12 + 2·3`). -/
theorem verifyResponse_iff_equation_witness :
    ((⟨5, true⟩ : Response 13).m_initialized = true) ∧
    ((⟨2, true⟩ : Challenge 13).m_initialized = true) ∧
    ((⟨12, true⟩ : CommitPoint 13).m_initialized = true) ∧
    (MultiSig.VerifyResponse (1 : ZMod 13) ⟨5, true⟩ ⟨2, true⟩ 3 ⟨12, true⟩
        = true
      ↔ (5 : ZMod 13) * 1 = 12 + 2 * 3) :=
  ⟨rfl, rfl, rfl,
    verifyResponse_iff_equation 1 ⟨5, true⟩ ⟨2, true⟩ 3 ⟨12, true⟩ rfl rfl
      rfl⟩

/-- C3: serialization round trip — for each value type (`CommitSecret`,
`CommitPoint`, `CommitPointHash`, `Challenge`, `Response`) and every
initialized value `x` (whose content satisfies the data-model invariant of
spec §3: field scalars in `[1, n-1]`, points not the identity, digests
scalar-sized), deserializing the bytes written by `Serialize(x)` at the same
offset succeeds and yields an object equal to `x` under that type's
`operator==`. -/
theorem serialize_roundtrip {n : ℕ} [NeZero n]
    (hn : n ≤ 256 ^ scalarWidth) :
    (∀ (x : CommitSecret n) (dst : List ℕ) (offset : ℕ),
      x.m_initialized = true → x.m_s ≠ 0 →
      CommitSecret.eq
          (CommitSecret.deserialize n (x.Serialize dst offset).1 offset).1 x
          = true ∧
        (CommitSecret.deserialize n (x.Serialize dst offset).1 offset).2
          = .ok) ∧
    (∀ (x : CommitPoint n) (dst : List ℕ) (offset : ℕ),
      x.m_initialized = true → x.m_p ≠ 0 →
      CommitPoint.eq
          (CommitPoint.deserialize n (x.Serialize dst offset).1 offset).1 x
          = true ∧
        (CommitPoint.deserialize n (x.Serialize dst offset).1 offset).2
          = .ok) ∧
    (∀ (x : CommitPointHash n) (dst : List ℕ) (offset : ℕ),
      x.m_initialized = true → x.m_h < 256 ^ scalarWidth →
      CommitPointHash.eq
          (CommitPointHash.deserialize n (x.Serialize dst offset).1
            offset).1 x = true ∧
        (CommitPointHash.deserialize n (x.Serialize dst offset).1 offset).2
          = .ok) ∧
    (∀ (x : Challenge n) (dst : List ℕ) (offset : ℕ),
      x.m_initialized = true → x.m_c ≠ 0 →
      Challenge.eq
          (Challenge.deserialize n (x.Serialize dst offset).1 offset).1 x
          = true ∧
        (Challenge.deserialize n (x.Serialize dst offset).1 offset).2
          = .ok) ∧
    (∀ (x : Response n) (dst : List ℕ) (offset : ℕ),
      x.m_initialized = true → x.m_r ≠ 0 →
      Response.eq
          (Response.deserialize n (x.Serialize dst offset).1 offset).1 x
          = true ∧
        (Response.deserialize n (x.Serialize dst offset).1 offset).2
          = .ok) := by
  have hn' : n ≤ 256 ^ pointWidth := by
    refine le_trans hn
      (Nat.pow_le_pow_right (by norm_num) (by norm_num [scalarWidth, pointWidth]))
  refine ⟨?_, ?_, ?_, ?_, ?_⟩
  · intro x dst offset hx hs
    obtain ⟨hbuf, hdec, hrange, hcast⟩ :=
      val_encode_facts scalarWidth hn x.m_s hs dst offset
    simp only [CommitSecret.Serialize, CommitSecret.deserialize, hdec]
    rw [if_neg hbuf, if_neg hrange]
    simp [CommitSecret.eq, hcast]
  · intro x dst offset hx hs
    obtain ⟨hbuf, hdec, hrange, hcast⟩ :=
      val_encode_facts pointWidth hn' x.m_p hs dst offset
    simp only [CommitPoint.Serialize, CommitPoint.deserialize, hdec]
    rw [if_neg hbuf, if_neg hrange]
    simp [CommitPoint.eq, hcast]
  · intro x dst offset hx hs
    obtain ⟨hbuf, hdec⟩ := decode_writeAt scalarWidth x.m_h hs dst offset
    simp only [CommitPointHash.Serialize, CommitPointHash.deserialize, hdec]
    rw [if_neg hbuf]
    simp [CommitPointHash.eq, hdec]
  · intro x dst offset hx hs
    obtain ⟨hbuf, hdec, hrange, hcast⟩ :=
      val_encode_facts scalarWidth hn x.m_c hs dst offset
    simp only [Challenge.Serialize, Challenge.deserialize, hdec]
    rw [if_neg hbuf, if_neg hrange]
    simp [Challenge.eq, hcast]
  · intro x dst offset hx hs
    obtain ⟨hbuf, hdec, hrange, hcast⟩ :=
      val_encode_facts scalarWidth hn x.m_r hs dst offset
    simp only [Response.Serialize, Response.deserialize, hdec]
    rw [if_neg hbuf, if_neg hrange]
    simp [Response.eq, hcast]

/-- Witness for C3: round trips at concrete values over `ZMod 13`, written
into a non-empty buffer at a nonzero offset. -/
theorem serialize_roundtrip_witness :
    (CommitSecret.eq
        (CommitSecret.deserialize 13
          ((⟨5, true⟩ : CommitSecret 13).Serialize [9, 9] 4).1 4).1
        ⟨5, true⟩ = true ∧
      (CommitSecret.deserialize 13
        ((⟨5, true⟩ : CommitSecret 13).Serialize [9, 9] 4).1 4).2 = .ok) ∧
    (CommitPoint.eq
        (CommitPoint.deserialize 13
          ((⟨7, true⟩ : CommitPoint 13).Serialize [] 0).1 0).1
        ⟨7, true⟩ = true ∧
      (CommitPoint.deserialize 13
        ((⟨7, true⟩ : CommitPoint 13).Serialize [] 0).1 0).2 = .ok) ∧
    (CommitPointHash.eq
        (CommitPointHash.deserialize 13
          ((⟨90, true⟩ : CommitPointHash 13).Serialize [] 0).1 0).1
        ⟨90, true⟩ = true ∧
      (CommitPointHash.deserialize 13
        ((⟨90, true⟩ : CommitPointHash 13).Serialize [] 0).1 0).2 = .ok) ∧
    (Challenge.eq
        (Challenge.deserialize 13
          ((⟨11, true⟩ : Challenge 13).Serialize [] 0).1 0).1
        ⟨11, true⟩ = true ∧
      (Challenge.deserialize 13
        ((⟨11, true⟩ : Challenge 13).Serialize [] 0).1 0).2 = .ok) ∧
    (Response.eq
        (Response.deserialize 13
          ((⟨3, true⟩ : Response 13).Serialize [] 0).1 0).1
        ⟨3, true⟩ = true ∧
      (Response.deserialize 13
        ((⟨3, true⟩ : Response 13).Serialize [] 0).1 0).2 = .ok) :=
  ⟨(serialize_roundtrip (by decide)).1 ⟨5, true⟩ [9, 9] 4 rfl (by decide),
    (serialize_roundtrip (by decide)).2.1 ⟨7, true⟩ [] 0 rfl (by decide),
    (serialize_roundtrip (by decide)).2.2.1 ⟨90, true⟩ [] 0 rfl (by decide),
    (serialize_roundtrip (by decide)).2.2.2.1 ⟨11, true⟩ [] 0 rfl
      (by decide),
    (serialize_roundtrip (by decide)).2.2.2.2 ⟨3, true⟩ [] 0 rfl
      (by decide)⟩

/-- C4: each of `AggregatePubKeys`, `AggregateCommits` and
`AggregateResponses` on an empty list fails by returning the empty/null
result (`none`), not an identity element. -/
theorem aggregate_empty_fails (n : ℕ) :
    @MultiSig.AggregatePubKeys n [] = none ∧
      @MultiSig.AggregateCommits n [] = none ∧
      @MultiSig.AggregateResponses n [] = none := by
  refine ⟨?_, ?_, ?_⟩ <;>
    simp [MultiSig.AggregatePubKeys, MultiSig.AggregateCommits,
      MultiSig.AggregateResponses]

/-- C5 counterexample: the claim's `InvalidMathematicalValue` clause fails
for the value object `CommitPointHash` — a buffer of 32 zero bytes decodes
to the value `0`, yet `CommitPointHash.deserialize` succeeds and marks the
object initialized, because the digest is a raw scalar-sized hash value with
no `[1, n-1]` range invariant (spec §3, §4.3; the §8 round trip would be
unsatisfiable for digests outside `[1, n-1]` otherwise). -/
theorem hash_deserialize_accepts_zero :
    beBytesToNat (((List.replicate 32 0).drop 0).take scalarWidth) = 0 ∧
      CommitPointHash.deserialize 13 (List.replicate 32 0) 0
        = (⟨0, true⟩, .ok) := by
  refine ⟨by decide, by decide⟩

/-- C5 (amended): deserialization failure atomicity and error
classification for every value object — each of the five `Deserialize`
methods fails with `MalformedInput` when fewer bytes remain than its fixed
width; the field-scalar types (`CommitSecret`, `Challenge`, `Response`)
fail with `InvalidMathematicalValue` when the decoded scalar is `0` or
`≥ n`, and `CommitPoint` when the decoding is the identity or not a
curve-group element; `CommitPointHash` stores a raw scalar-sized digest
and has no such range failure; on any failure the resulting object's
initialized flag is `false` (the inert uninitialized object). -/
theorem deserialize_failure_classification (n : ℕ) (src : List ℕ)
    (offset : ℕ) :
    ((src.length < offset + scalarWidth →
        CommitSecret.deserialize n src offset
          = (⟨0, false⟩, .malformedInput)) ∧
      (¬ src.length < offset + scalarWidth →
        (beBytesToNat ((src.drop offset).take scalarWidth) = 0
          ∨ n ≤ beBytesToNat ((src.drop offset).take scalarWidth)) →
        CommitSecret.deserialize n src offset
          = (⟨0, false⟩, .invalidMathematicalValue)) ∧
      ((CommitSecret.deserialize n src offset).2 ≠ .ok →
        (CommitSecret.deserialize n src offset).1.m_initialized
          = false)) ∧
    ((src.length < offset + pointWidth →
        CommitPoint.deserialize n src offset
          = (⟨0, false⟩, .malformedInput)) ∧
      (¬ src.length < offset + pointWidth →
        (beBytesToNat ((src.drop offset).take pointWidth) = 0
          ∨ n ≤ beBytesToNat ((src.drop offset).take pointWidth)) →
        CommitPoint.deserialize n src offset
          = (⟨0, false⟩, .invalidMathematicalValue)) ∧
      ((CommitPoint.deserialize n src offset).2 ≠ .ok →
        (CommitPoint.deserialize n src offset).1.m_initialized
          = false)) ∧
    ((src.length < offset + scalarWidth →
        CommitPointHash.deserialize n src offset
          = (⟨0, false⟩, .malformedInput)) ∧
      ((CommitPointHash.deserialize n src offset).2 ≠ .ok →
        (CommitPointHash.deserialize n src offset).1.m_initialized
          = false)) ∧
    ((src.length < offset + scalarWidth →
        Challenge.deserialize n src offset
          = (⟨0, false⟩, .malformedInput)) ∧
      (¬ src.length < offset + scalarWidth →
        (beBytesToNat ((src.drop offset).take scalarWidth) = 0
          ∨ n ≤ beBytesToNat ((src.drop offset).take scalarWidth)) →
        Challenge.deserialize n src offset
          = (⟨0, false⟩, .invalidMathematicalValue)) ∧
      ((Challenge.deserialize n src offset).2 ≠ .ok →
        (Challenge.deserialize n src offset).1.m_initialized = false)) ∧
    ((src.length < offset + scalarWidth →
        Response.deserialize n src offset
          = (⟨0, false⟩, .malformedInput)) ∧
      (¬ src.length < offset + scalarWidth →
        (beBytesToNat ((src.drop offset).take scalarWidth) = 0
          ∨ n ≤ beBytesToNat ((src.drop offset).take scalarWidth)) →
        Response.deserialize n src offset
          = (⟨0, false⟩, .invalidMathematicalValue)) ∧
      ((Response.deserialize n src offset).2 ≠ .ok →
        (Response.deserialize n src offset).1.m_initialized = false)) := by
  refine ⟨⟨?_, ?_, ?_⟩, ⟨?_, ?_, ?_⟩, ⟨?_, ?_⟩, ⟨?_, ?_, ?_⟩, ⟨?_, ?_, ?_⟩⟩
  · intro h
    simp [CommitSecret.deserialize, h]
  · intro h1 h2
    simp [CommitSecret.deserialize, h1, h2]
  · by_cases h1 : src.length < offset + scalarWidth
    · simp [CommitSecret.deserialize, h1]
    · by_cases h2 : beBytesToNat ((src.drop offset).take scalarWidth) = 0
          ∨ n ≤ beBytesToNat ((src.drop offset).take scalarWidth)
      · simp [CommitSecret.deserialize, h1, h2]
      · intro hne
        exact absurd (by simp [CommitSecret.deserialize, h1, h2]) hne
  · intro h
    simp [CommitPoint.deserialize, h]
  · intro h1 h2
    simp [CommitPoint.deserialize, h1, h2]
  · by_cases h1 : src.length < offset + pointWidth
    · simp [CommitPoint.deserialize, h1]
    · by_cases h2 : beBytesToNat ((src.drop offset).take pointWidth) = 0
          ∨ n ≤ beBytesToNat ((src.drop offset).take pointWidth)
      · simp [CommitPoint.deserialize, h1, h2]
      · intro hne
        exact absurd (by simp [CommitPoint.deserialize, h1, h2]) hne
  · intro h
    simp [CommitPointHash.deserialize, h]
  · by_cases h1 : src.length < offset + scalarWidth
    · simp [CommitPointHash.deserialize, h1]
    · intro hne
      exact absurd (by simp [CommitPointHash.deserialize, h1]) hne
  · intro h
    simp [Challenge.deserialize, h]
  · intro h1 h2
    simp [Challenge.deserialize, h1, h2]
  · by_cases h1 : src.length < offset + scalarWidth
    · simp [Challenge.deserialize, h1]
    · by_cases h2 : beBytesToNat ((src.drop offset).take scalarWidth) = 0
          ∨ n ≤ beBytesToNat ((src.drop offset).take scalarWidth)
      · simp [Challenge.deserialize, h1, h2]
      · intro hne
        exact absurd (by simp [Challenge.deserialize, h1, h2]) hne
  · intro h
    simp [Response.deserialize, h]
  · intro h1 h2
    simp [Response.deserialize, h1, h2]
  · by_cases h1 : src.length < offset + scalarWidth
    · simp [Response.deserialize, h1]
    · by_cases h2 : beBytesToNat ((src.drop offset).take scalarWidth) = 0
          ∨ n ≤ beBytesToNat ((src.drop offset).take scalarWidth)
      · simp [Response.deserialize, h1, h2]
      · intro hne
        exact absurd (by simp [Response.deserialize, h1, h2]) hne

/-- Witness for C5: for each of the five value objects a too-short buffer
yields `MalformedInput` and leaves the object uninitialized; for the four
scalar/point types an in-range buffer decoding to the invalid value `0`
(for the point: the identity) yields `InvalidMathematicalValue`. -/
theorem deserialize_failure_classification_witness :
    CommitSecret.deserialize 13 [] 0 = (⟨0, false⟩, .malformedInput) ∧
    CommitSecret.deserialize 13 (List.replicate 32 0) 0
      = (⟨0, false⟩, .invalidMathematicalValue) ∧
    (CommitSecret.deserialize 13 [] 0).1.m_initialized = false ∧
    CommitPoint.deserialize 13 [] 0 = (⟨0, false⟩, .malformedInput) ∧
    CommitPoint.deserialize 13 (List.replicate 33 0) 0
      = (⟨0, false⟩, .invalidMathematicalValue) ∧
    CommitPointHash.deserialize 13 [] 0 = (⟨0, false⟩, .malformedInput) ∧
    (CommitPointHash.deserialize 13 [] 0).1.m_initialized = false ∧
    Challenge.deserialize 13 [] 0 = (⟨0, false⟩, .malformedInput) ∧
    Challenge.deserialize 13 (List.replicate 32 0) 0
      = (⟨0, false⟩, .invalidMathematicalValue) ∧
    Response.deserialize 13 [] 0 = (⟨0, false⟩, .malformedInput) ∧
    Response.deserialize 13 (List.replicate 32 0) 0
      = (⟨0, false⟩, .invalidMathematicalValue) :=
  ⟨(deserialize_failure_classification 13 [] 0).1.1 (by decide),
    (deserialize_failure_classification 13 (List.replicate 32 0) 0).1.2.1
      (by decide) (by decide),
    (deserialize_failure_classification 13 [] 0).1.2.2 (by decide),
    (deserialize_failure_classification 13 [] 0).2.1.1 (by decide),
    (deserialize_failure_classification 13 (List.replicate 33 0) 0).2.1.2.1
      (by decide) (by decide),
    (deserialize_failure_classification 13 [] 0).2.2.1.1 (by decide),
    (deserialize_failure_classification 13 [] 0).2.2.1.2 (by decide),
    (deserialize_failure_classification 13 [] 0).2.2.2.1.1 (by decide),
    (deserialize_failure_classification 13 (List.replicate 32 0)
      0).2.2.2.1.2.1 (by decide) (by decide),
    (deserialize_failure_classification 13 [] 0).2.2.2.2.1 (by decide),
    (deserialize_failure_classification 13 (List.replicate 32 0)
      0).2.2.2.2.2.1 (by decide) (by decide)⟩

/-- C6: `Response::Set(secret, challenge, privkey)` on initialized inputs
produces the scalar `(secret + challenge·privkey) mod n` and marks the
response initialized; if the secret or the challenge is uninitialized, the
operation fails and the response remains uninitialized. -/
theorem response_set_spec {n : ℕ} [NeZero n] (secret : CommitSecret n)
    (challenge : Challenge n) (privkey : ZMod n) :
    (secret.m_initialized = true → challenge.m_initialized = true →
      (Response.Set secret challenge privkey).m_r
          = secret.m_s + challenge.m_c * privkey ∧
        (Response.Set secret challenge privkey).m_r.val
          = (secret.m_s.val + challenge.m_c.val * privkey.val) % n ∧
        (Response.Set secret challenge privkey).m_initialized = true) ∧
    (¬ (secret.m_initialized = true ∧ challenge.m_initialized = true) →
      (Response.Set secret challenge privkey).m_initialized = false) := by
  constructor
  · intro hs hc
    refine ⟨by simp [Response.Set, hs, hc], ?_, by simp [Response.Set, hs, hc]⟩
    simp only [Response.Set, hs, hc, and_self, if_true]
    rw [ZMod.val_add, ZMod.val_mul, Nat.add_mod,
      Nat.mod_mod_of_dvd _ dvd_rfl, ← Nat.add_mod]
  · intro h
    simp [Response.Set, h]

/-- Witness for C6: both branches at concrete inputs over `ZMod 13`. -/
theorem response_set_spec_witness :
    ((Response.Set (⟨4, true⟩ : CommitSecret 13) ⟨6, true⟩ 9).m_r
        = 4 + 6 * 9 ∧
      (Response.Set (⟨4, true⟩ : CommitSecret 13) ⟨6, true⟩ 9).m_r.val
        = ((4 : ZMod 13).val + (6 : ZMod 13).val * (9 : ZMod 13).val)
          % 13 ∧
      (Response.Set (⟨4, true⟩ : CommitSecret 13) ⟨6, true⟩
        9).m_initialized = true) ∧
    (Response.Set (⟨4, false⟩ : CommitSecret 13) ⟨6, true⟩
      9).m_initialized = false :=
  ⟨(response_set_spec ⟨4, true⟩ ⟨6, true⟩ 9).1 rfl rfl,
    (response_set_spec ⟨4, false⟩ ⟨6, true⟩ 9).2 (by decide)⟩

/-- C7: aggregation is order-independent — permuting the input list leaves
`AggregateCommits`, `AggregatePubKeys` and `AggregateResponses`
unchanged. -/
theorem aggregate_perm_invariant {n : ℕ} (lc lc' : List (CommitPoint n))
    (lp lp' : List (ZMod n)) (lr lr' : List (Response n))
    (hc : lc.Perm lc') (hp : lp.Perm lp') (hr : lr.Perm lr') :
    MultiSig.AggregateCommits lc = MultiSig.AggregateCommits lc' ∧
      MultiSig.AggregatePubKeys lp = MultiSig.AggregatePubKeys lp' ∧
      MultiSig.AggregateResponses lr = MultiSig.AggregateResponses lr' := by
  refine ⟨?_, ?_, ?_⟩
  · unfold MultiSig.AggregateCommits
    rw [hc.isEmpty_eq, perm_all_eq _ hc, (hc.map (·.m_p)).sum_eq]
  · unfold MultiSig.AggregatePubKeys
    rw [hp.isEmpty_eq, hp.sum_eq]
  · unfold MultiSig.AggregateResponses
    rw [hr.isEmpty_eq, perm_all_eq _ hr, (hr.map (·.m_r)).sum_eq]

/-- Witness for C7: a concrete permutation of concrete lists over
`ZMod 13`. -/
theorem aggregate_perm_invariant_witness :
    MultiSig.AggregateCommits
        [(⟨3, true⟩ : CommitPoint 13), ⟨5, true⟩, ⟨8, true⟩]
      = MultiSig.AggregateCommits
        [(⟨8, true⟩ : CommitPoint 13), ⟨3, true⟩, ⟨5, true⟩] ∧
    MultiSig.AggregatePubKeys [(2 : ZMod 13), 7]
      = MultiSig.AggregatePubKeys [(7 : ZMod 13), 2] ∧
    MultiSig.AggregateResponses [(⟨1, true⟩ : Response 13), ⟨9, true⟩]
      = MultiSig.AggregateResponses [(⟨9, true⟩ : Response 13), ⟨1, true⟩] :=
  aggregate_perm_invariant _ _ _ _ _ _ (by decide) (by decide) (by decide)

/-- C9: the whole-message entry point `MultiSigVerify(m, sig, Q)` returns
the same boolean as the sliced entry point
`MultiSigVerify(m, 0, m.size(), sig, Q)`. -/
theorem multiSigVerify_overload_equiv {n : ℕ} (H : List ℕ → ℕ) (g : ZMod n)
    (message : List ℕ) (toverify : Signature n) (pubkey : ZMod n) :
    MultiSig.MultiSigVerify H g message toverify pubkey
      = MultiSig.MultiSigVerifySliced H g message 0 message.length toverify
        pubkey := rfl

/-- C10: for each value type with a byte-stream constructor, constructing
from a buffer yields the same resulting state (value and initialized flag)
as deserializing the buffer into a fresh default object: in the model the
deserialization result is independent of the object's prior state (spec §7:
failure never leaves a corrupted partial value), so the constructor is
exactly the deserialization result. -/
theorem ctor_deserialize_equiv (n : ℕ) (src : List ℕ) (offset : ℕ) :
    Challenge.ofByteStream n src offset
        = (Challenge.deserialize n src offset).1 ∧
      CommitSecret.ofByteStream n src offset
        = (CommitSecret.deserialize n src offset).1 ∧
      Response.ofByteStream n src offset
        = (Response.deserialize n src offset).1 ∧
      CommitPoint.ofByteStream n src offset
        = (CommitPoint.deserialize n src offset).1 ∧
      CommitPointHash.ofByteStream n src offset
        = (CommitPointHash.deserialize n src offset).1 :=
  ⟨rfl, rfl, rfl, rfl, rfl⟩

end LibCrypto
